import Mathlib

/-!
Shallow embedding of the EBTEL two-fluid loop integrator (`source/loop.cpp`)
over the real numbers, together with theorems checking the design
specification against the code.  Machine doubles are modelled as elements of
`ℝ`; `pow`, `sqrt`, `exp`, `log`, `log10`, `sin` become `Real.rpow`,
`Real.sqrt`, `Real.exp`, `Real.log`, `Real.logb 10`, `Real.sin`, and `fmax`,
`fmin`, `fabs` become `max`, `min`, `|·|`.
-/

noncomputable section

/-- The 3-component state vector `(pressure_e, pressure_i, density)`
(`__state[0]`, `__state[1]`, `__state[2]` in `loop.cpp`). -/
structure EState where
  pe : ℝ
  pi : ℝ
  n : ℝ

/-- Configuration record read from the XML file in `Loop::Loop`, plus the two
abundance-derived corrections computed once at construction
(`CalculateAbundanceCorrection`).  All fields are immutable after
construction. -/
structure Params where
  total_time : ℝ
  tau : ℝ
  loop_length : ℝ
  rka_error : ℝ
  saturation_limit : ℝ
  c1_cond0 : ℝ
  c1_rad0 : ℝ
  use_c1_loss_correction : Bool
  use_c1_grav_correction : Bool
  use_power_law_radiative_losses : Bool
  use_spitzer_conductivity : Bool
  calculate_dem : Bool
  solver : String
  boltzmann_correction : ℝ
  ion_mass_correction : ℝ

/-- Modelled from the spec: the physical-constant macros
(`BOLTZMANN_CONSTANT`, `SPITZER_ELECTRON_CONDUCTIVITY`,
`SPITZER_ION_CONDUCTIVITY`, `ELECTRON_MASS`, `PROTON_MASS`, `GAMMA`,
`GAMMA_MINUS_ONE`, `SOLAR_SURFACE_GRAVITY`, `ELECTRON_CHARGE_POWER_4`,
`LARGEST_DOUBLE`) live in a header that is not part of `src/`; the spec
describes them only as fixed scalar constants, so they are carried as
abstract parameters of the embedding.  The macro `_PI_` is modelled by
`Real.pi`. -/
structure PhysConsts where
  boltzmann_constant : ℝ
  spitzer_electron_conductivity : ℝ
  spitzer_ion_conductivity : ℝ
  electron_mass : ℝ
  proton_mass : ℝ
  gamma : ℝ
  gamma_minus_one : ℝ
  solar_surface_gravity : ℝ
  electron_charge_power_4 : ℝ
  largest_double : ℝ

/-- A `Loop` object: its immutable parameters, the physical constants, and
the two external collaborators the core queries (`radiation_model` through
`GetPowerLawRad`, which takes `log10` of a temperature, and `heater` through
`Get_Heating` and its fixed `partition` fraction).  Both collaborators live
outside `src/` and are modelled from the spec as pure functions. -/
structure Loop where
  consts : PhysConsts
  p : Params
  radLoss : ℝ → ℝ
  heating : ℝ → ℝ
  partition : ℝ

/-- The seven parallel result sequences of the `Results` structure filled by
`SaveResults` and trimmed by `PrintToFile`. -/
structure Results where
  time : List ℝ
  heat : List ℝ
  temperature_e : List ℝ
  temperature_i : List ℝ
  pressure_e : List ℝ
  pressure_i : List ℝ
  density : List ℝ

/-- The species-selector string `"electron"`; `Loop::CalculateThermalConduction`
dispatches on a string equality test against this literal. -/
def electron_species : String := "electron"

/-- The species-selector string `"ion"` used at the ion call sites. -/
def ion_species : String := "ion"

/-- `Loop::CalculateC2`: always `0.9`. -/
def CalculateC2 (_L : Loop) : ℝ := 0.9

/-- `Loop::CalculateC3`: always `0.6`. -/
def CalculateC3 (_L : Loop) : ℝ := 0.6

/-- `Loop::CalculateScaleHeight`. -/
def CalculateScaleHeight (L : Loop) (temperature_e temperature_i : ℝ) : ℝ :=
  L.consts.boltzmann_constant*(temperature_e + L.p.boltzmann_correction*temperature_i)
    /(L.p.ion_mass_correction*L.consts.proton_mass)/L.consts.solar_surface_gravity

/-- The local `c1_eqm0 = 2` of `Loop::CalculateC1`. -/
def c1_eqm0 : ℝ := 2

/-- The gravitational correction factor of `Loop::CalculateC1`: `1` unless
`use_c1_grav_correction` is set. -/
def c1_grav_correction (L : Loop) (temperature_e temperature_i : ℝ) : ℝ :=
  if L.p.use_c1_grav_correction then
    Real.exp (4*Real.sin (Real.pi/5)*L.p.loop_length
      /(Real.pi*CalculateScaleHeight L temperature_e temperature_i))
  else 1

/-- The loss correction factor of `Loop::CalculateC1`: `1` unless
`use_c1_loss_correction` is set. -/
def c1_loss_correction (L : Loop) (temperature_e : ℝ) : ℝ :=
  if L.p.use_c1_loss_correction then
    1.95e-18*temperature_e ^ (-2/3 : ℝ)/L.radLoss (Real.logb 10 temperature_e)
  else 1

/-- The local `density_eqm_2` of `Loop::CalculateC1`. -/
def density_eqm_2 (L : Loop) (temperature_e temperature_i : ℝ) : ℝ :=
  (L.consts.spitzer_electron_conductivity + L.consts.spitzer_ion_conductivity)
      *(temperature_e/CalculateC2 L) ^ (3.5 : ℝ)
    /(3.5*L.p.loop_length^2*c1_eqm0*c1_loss_correction L temperature_e
        *c1_grav_correction L temperature_e temperature_i
        *L.radLoss (Real.logb 10 temperature_e))

/-- The local `density_ratio = pow(density,2)/density_eqm_2` of
`Loop::CalculateC1`. -/
def density_rat (L : Loop) (temperature_e temperature_i density : ℝ) : ℝ :=
  density^2/density_eqm_2 L temperature_e temperature_i

/-- The under-dense (conduction-dominated) branch of `Loop::CalculateC1`. -/
def c1_cond_branch (cond0 r : ℝ) : ℝ :=
  (2*c1_eqm0 + cond0*(1/r - 1))/(1 + 1/r)

/-- The over-dense (radiation-dominated) branch of `Loop::CalculateC1`. -/
def c1_rad_branch (rad0 r : ℝ) : ℝ :=
  (2*c1_eqm0 + rad0*(r - 1))/(1 + r)

/-- `Loop::CalculateC1`. -/
def CalculateC1 (L : Loop) (temperature_e temperature_i density : ℝ) : ℝ :=
  let drat := density_rat L temperature_e temperature_i density
  (if drat < 1 then c1_cond_branch L.p.c1_cond0 drat else c1_rad_branch L.p.c1_rad0 drat)
    *c1_loss_correction L temperature_e*c1_grav_correction L temperature_e temperature_i

/-- The `kappa` selected by the species string in
`Loop::CalculateThermalConduction`. -/
def kappa_of (L : Loop) (species : String) : ℝ :=
  if species = "electron" then L.consts.spitzer_electron_conductivity
  else L.consts.spitzer_ion_conductivity

/-- The `mass` selected by the species string in
`Loop::CalculateThermalConduction`. -/
def mass_of (L : Loop) (species : String) : ℝ :=
  if species = "electron" then L.consts.electron_mass
  else L.p.ion_mass_correction*L.consts.proton_mass

/-- The `k_B` selected by the species string in
`Loop::CalculateThermalConduction`. -/
def kB_of (L : Loop) (species : String) : ℝ :=
  if species = "electron" then L.consts.boltzmann_constant
  else L.p.boltzmann_correction*L.consts.boltzmann_constant

/-- The classical (Spitzer) flux `f_c` of `Loop::CalculateThermalConduction`. -/
def f_c_of (L : Loop) (temperature : ℝ) (species : String) : ℝ :=
  -2/7*kappa_of L species*(temperature/CalculateC2 L) ^ (3.5 : ℝ)/L.p.loop_length

/-- The saturated flux bound `f_s` of `Loop::CalculateThermalConduction`. -/
def f_s_of (L : Loop) (temperature density : ℝ) (species : String) : ℝ :=
  -L.p.saturation_limit*1.5/Real.sqrt (mass_of L species)*density
    *(kB_of L species*temperature) ^ (1.5 : ℝ)

/-- `Loop::CalculateThermalConduction`. -/
def CalculateThermalConduction (L : Loop) (temperature density : ℝ) (species : String) : ℝ :=
  if L.p.use_spitzer_conductivity then f_c_of L temperature species
  else
    -f_c_of L temperature species*f_s_of L temperature density species
      /Real.sqrt ((f_c_of L temperature species)^2 + (f_s_of L temperature density species)^2)

/-- `Loop::CalculateCollisionFrequency`. -/
def CalculateCollisionFrequency (L : Loop) (temperature_e density : ℝ) : ℝ :=
  let coulomb_logarithm := 23 - Real.log (Real.sqrt (density/1.0e13)
    *(L.consts.boltzmann_constant*temperature_e/(1.602e-9)) ^ (-1.5 : ℝ))
  16*Real.sqrt Real.pi/3*L.consts.electron_charge_power_4
    /(L.p.ion_mass_correction*L.consts.proton_mass*L.consts.electron_mass)
    *(2*L.consts.boltzmann_constant*temperature_e/L.consts.electron_mass) ^ (-1.5 : ℝ)
    *density*coulomb_logarithm

/-- The electron temperature `state[0]/(BOLTZMANN_CONSTANT*state[2])` recovered
in `Loop::CalculateDerivs` (and `Loop::SaveResults`). -/
def temperature_e_of (L : Loop) (s : EState) : ℝ :=
  s.pe/(L.consts.boltzmann_constant*s.n)

/-- The ion temperature
`state[1]/(BOLTZMANN_CONSTANT*boltzmann_correction*state[2])` recovered in
`Loop::CalculateDerivs` (and `Loop::SaveResults`). -/
def temperature_i_of (L : Loop) (s : EState) : ℝ :=
  s.pi/(L.consts.boltzmann_constant*L.p.boltzmann_correction*s.n)

/-- The local `xi = state[0]/state[1]` of `Loop::CalculateDerivs`. -/
def xi_of (s : EState) : ℝ := s.pe/s.pi

/-- The local `psi_c` (electron-ion coupling term) of `Loop::CalculateDerivs`. -/
def psi_c (L : Loop) (s : EState) : ℝ :=
  L.p.loop_length/L.consts.gamma_minus_one
    *CalculateCollisionFrequency L (temperature_e_of L s) s.n*(s.pi - s.pe)

/-- The local `R_c = pow(state[2],2)*radiative_loss*loop_length` of
`Loop::CalculateDerivs`. -/
def R_c (L : Loop) (s : EState) : ℝ :=
  s.n^2*L.radLoss (Real.logb 10 (temperature_e_of L s))*L.p.loop_length

/-- The local `psi_tr` (transition-region flux term) of
`Loop::CalculateDerivs`. -/
def psi_tr (L : Loop) (s : EState) : ℝ :=
  (CalculateThermalConduction L (temperature_e_of L s) s.n electron_species
      + CalculateC1 L (temperature_e_of L s) (temperature_i_of L s) s.n*R_c L s
      - xi_of s*CalculateThermalConduction L (temperature_i_of L s) s.n ion_species)
    /(1 + xi_of s)

/-- `Loop::CalculateDerivs`: the right-hand side of the ODE system, a pure
function of the state, the time, the configuration and the collaborator
outputs. -/
def CalculateDerivs (L : Loop) (s : EState) (time : ℝ) : EState :=
  let f_e := CalculateThermalConduction L (temperature_e_of L s) s.n electron_species
  let c1 := CalculateC1 L (temperature_e_of L s) (temperature_i_of L s) s.n
  let heat := L.heating time
  { pe := L.consts.gamma_minus_one/L.p.loop_length
            *(psi_tr L s + psi_c L s - R_c L s*(1 + c1))
          + L.consts.gamma_minus_one*heat*L.partition
    pi := -L.consts.gamma_minus_one/L.p.loop_length*(psi_tr L s + psi_c L s)
          + L.consts.gamma_minus_one*heat*(1 - L.partition)
    n := CalculateC2 L*L.consts.gamma_minus_one
           /(CalculateC3 L*L.p.loop_length*L.consts.gamma*L.consts.boltzmann_constant
             *temperature_e_of L s)
           *(-f_e - c1*R_c L s + psi_tr L s) }

/-- `Loop::EulerSolver`. -/
def EulerSolver (L : Loop) (state : EState) (time tau : ℝ) : EState :=
  let derivs := CalculateDerivs L state time
  ⟨state.pe + derivs.pe*tau, state.pi + derivs.pi*tau, state.n + derivs.n*tau⟩

/-- `Loop::RK4Solver`: one classical fourth-order Runge-Kutta step. -/
def RK4Solver (L : Loop) (state : EState) (time tau : ℝ) : EState :=
  let f1 := CalculateDerivs L state time
  let s1 : EState := ⟨state.pe + tau/2*f1.pe, state.pi + tau/2*f1.pi,
    state.n + tau/2*f1.n⟩
  let f2 := CalculateDerivs L s1 (time + tau/2)
  let s2 : EState := ⟨state.pe + tau/2*f2.pe, state.pi + tau/2*f2.pi,
    state.n + tau/2*f2.n⟩
  let f3 := CalculateDerivs L s2 (time + tau/2)
  let s3 : EState := ⟨state.pe + tau*f3.pe, state.pi + tau*f3.pi, state.n + tau*f3.n⟩
  let f4 := CalculateDerivs L s3 (time + tau)
  ⟨state.pe + tau/6*(f1.pe + 2*f2.pe + 2*f3.pe + f4.pe),
   state.pi + tau/6*(f1.pi + 2*f2.pi + 2*f3.pi + f4.pi),
   state.n + tau/6*(f1.n + 2*f2.n + 2*f3.n + f4.n)⟩

/-- The `small_step` of one `Loop::RKA4Solver` attempt: two successive RK4
half-steps. -/
def rka4_small_step (L : Loop) (state : EState) (time tau : ℝ) : EState :=
  RK4Solver L (RK4Solver L state time (tau*0.5)) (time + tau*0.5) (tau*0.5)

/-- One component of the `RKA4Solver` error-ratio vector:
`fabs(diff)/(scale + epsilon)` with `scale = rka_error*(|small|+|big|)/2` and
`epsilon = 1e-16`. -/
def err_comp (rka_error sj bj : ℝ) : ℝ :=
  |sj - bj|/(rka_error*(|sj| + |bj|)/2 + 1.0e-16)

/-- The `error_ratio` of one `Loop::RKA4Solver` attempt: the maximum of the
three per-component error ratios (`std::max_element`). -/
def rka4_err_max (L : Loop) (state : EState) (time tau : ℝ) : ℝ :=
  let small := rka4_small_step L state time tau
  let big := RK4Solver L state time tau
  max (max (err_comp L.p.rka_error small.pe big.pe) (err_comp L.p.rka_error small.pi big.pi))
    (err_comp L.p.rka_error small.n big.n)

/-- The step-size update of one `Loop::RKA4Solver` attempt before the
acceptance cap: `fmax(0.9*old_tau*pow(error_ratio,-1/5), old_tau/1.1)`. -/
def rka4_candidate_tau (L : Loop) (state : EState) (time tau : ℝ) : ℝ :=
  max (0.9*tau*(rka4_err_max L state time tau) ^ (-1/5 : ℝ)) (tau/1.1)

/-- The attempt loop of `Loop::RKA4Solver`; `fuel` counts the attempts that
remain after the current one (the C++ loop runs `max_try = 100` attempts, so
the solver enters with `fuel = 99`).  The `Bool` records whether the return
happened from inside the loop (an accepted attempt, `true`) or through the
fall-through path that prints the non-convergence warning (`false`); the
returned value is in both cases the last attempt's `small_step` paired with
`fmin(tau, 4*old_tau)`. -/
def rka4_go (L : Loop) (state : EState) (time : ℝ) : ℕ → ℝ → EState × ℝ × Bool
  | 0, tau =>
    (rka4_small_step L state time tau,
     min (rka4_candidate_tau L state time tau) (4*tau),
     if rka4_err_max L state time tau < 1 then true else false)
  | fuel+1, tau =>
    if rka4_err_max L state time tau < 1 then
      (rka4_small_step L state time tau,
       min (rka4_candidate_tau L state time tau) (4*tau), true)
    else rka4_go L state time fuel (rka4_candidate_tau L state time tau)

/-- Ghost observer of the attempt loop: the step size `old_tau` used by the
attempt at which `rka4_go` returns (the accepting attempt, or the last
attempt when none is accepted).  It mirrors the branch conditions of
`rka4_go` exactly. -/
def rka4_final_tau (L : Loop) (state : EState) (time : ℝ) : ℕ → ℝ → ℝ
  | 0, tau => tau
  | fuel+1, tau =>
    if rka4_err_max L state time tau < 1 then tau
    else rka4_final_tau L state time fuel (rka4_candidate_tau L state time tau)

/-- `Loop::RKA4Solver`: runs the 100-attempt loop and returns the result
state with the updated step size pushed onto its back. -/
def RKA4Solver (L : Loop) (state : EState) (time tau : ℝ) : List ℝ :=
  let r := rka4_go L state time 99 tau
  [r.1.pe, r.1.pi, r.1.n, r.2.1]

/-- The list view of a state vector (the `std::vector<double>` of size 3). -/
def EState.toVec (s : EState) : List ℝ := [s.pe, s.pi, s.n]

/-- All three state components strictly positive. -/
def StatePos (s : EState) : Prop := 0 < s.pe ∧ 0 < s.pi ∧ 0 < s.n

/-- The seven result sequences all have length `m`. -/
def EqLen (r : Results) (m : ℕ) : Prop :=
  r.time.length = m ∧ r.heat.length = m ∧ r.temperature_e.length = m ∧
  r.temperature_i.length = m ∧ r.pressure_e.length = m ∧ r.pressure_i.length = m ∧
  r.density.length = m

/-- The estimated step count `N = int(ceil(total_time/tau))` computed in the
`Loop` constructor (`Int.toNat` models the use of the integer as a vector
size). -/
def computeN (p : Params) : ℕ := (Int.ceil (p.total_time/p.tau)).toNat

/-- The pre-sizing `results.*.resize(N)` of the `Loop` constructor: seven
zero-filled sequences of length `N`. -/
def initResults (N : ℕ) : Results :=
  ⟨List.replicate N 0, List.replicate N 0, List.replicate N 0, List.replicate N 0,
   List.replicate N 0, List.replicate N 0, List.replicate N 0⟩

/-- `Loop::SaveResults`: append to all seven sequences when `i >= N`,
otherwise write index `i` in place in all seven. -/
def SaveResults (L : Loop) (N : ℕ) (res : Results) (i : ℕ) (time : ℝ) (st : EState) : Results :=
  let heat := L.heating time
  let temperature_e := st.pe/(L.consts.boltzmann_constant*st.n)
  let temperature_i := st.pi/(L.consts.boltzmann_constant*L.p.boltzmann_correction*st.n)
  if N ≤ i then
    { time := res.time ++ [time], heat := res.heat ++ [heat],
      temperature_e := res.temperature_e ++ [temperature_e],
      temperature_i := res.temperature_i ++ [temperature_i],
      pressure_e := res.pressure_e ++ [st.pe], pressure_i := res.pressure_i ++ [st.pi],
      density := res.density ++ [st.n] }
  else
    { time := res.time.set i time, heat := res.heat.set i heat,
      temperature_e := res.temperature_e.set i temperature_e,
      temperature_i := res.temperature_i.set i temperature_i,
      pressure_e := res.pressure_e.set i st.pe, pressure_i := res.pressure_i.set i st.pi,
      density := res.density.set i st.n }

/-- `k` successive `pop_back` operations, as performed per sequence by the
trimming loop of `Loop::PrintToFile`. -/
def popN : ℕ → List ℝ → List ℝ
  | 0, l => l
  | k+1, l => popN k l.dropLast

/-- The trimming phase of `Loop::PrintToFile`: remove `k` trailing entries
from each of the seven sequences (the file output itself is I/O and is not
modelled). -/
def trimResults (res : Results) (k : ℕ) : Results :=
  ⟨popN k res.time, popN k res.heat, popN k res.temperature_e, popN k res.temperature_i,
   popN k res.pressure_e, popN k res.pressure_i, popN k res.density⟩

/-- The excess computation at the end of `Loop::EvolveLoop`:
`excess = N - i; if (excess < 0) excess = 0;` over machine integers, modelled
on `ℤ`. -/
def excess_of (N i : ℤ) : ℤ := if N - i < 0 then 0 else N - i

/-- The solver dispatch of one `Loop::EvolveLoop` iteration: the updated
state together with the step size for the `time += tau` that follows (only
the `rka4` branch changes it).  A solver string that is none of `"euler"`,
`"rk4"`, `"rka4"` falls through with no update to the state. -/
def EvolveStep (L : Loop) (st : EState) (time tau : ℝ) : EState × ℝ :=
  if L.p.solver = "euler" then (EulerSolver L st time tau, tau)
  else if L.p.solver = "rk4" then (RK4Solver L st time tau, tau)
  else if L.p.solver = "rka4" then
    let out := rka4_go L st time 99 tau
    (out.1, out.2.1)
  else (st, tau)

/-- The `while (time < total_time)` loop of `Loop::EvolveLoop`: dispatch to
the configured solver, save a result row at index `i` and the current time,
then advance `time` by the (possibly updated) `tau` and increment `i`.
The C++ loop has no iteration bound, so the embedding carries an explicit
`fuel`; the `calculate_dem` block only queries the DEM collaborator (outside
`src/`) and does not touch the state or the results, so it is omitted. -/
def EvolveLoop_go (L : Loop) (N : ℕ) : ℕ → EState → ℝ → ℝ → ℕ → Results → EState × Results × ℕ
  | 0, st, _, _, i, res => (st, res, i)
  | fuel+1, st, time, tau, i, res =>
    if time < L.p.total_time then
      let sr := EvolveStep L st time tau
      EvolveLoop_go L N fuel sr.1 (time + sr.2) sr.2 (i + 1)
        (SaveResults L N res i time sr.1)
    else (st, res, i)

/-- `Loop::EvolveLoop` from its initial state: `time` and `tau` start at the
configured `tau` and `i` starts at `1`. -/
def EvolveLoop (L : Loop) (fuel : ℕ) (st0 : EState) : EState × Results × ℕ :=
  EvolveLoop_go L (computeN L.p) fuel st0 L.p.tau L.p.tau 1 (initResults (computeN L.p))

/-- The temperature update of one `Loop::CalculateInitialConditions`
iteration. -/
def ic_temperature (L : Loop) (heat c1 : ℝ) : ℝ :=
  CalculateC2 L*(3.5*c1/(1 + c1)*L.p.loop_length^2*heat
    /(L.consts.spitzer_electron_conductivity + L.consts.spitzer_ion_conductivity)) ^ (2/7 : ℝ)

/-- The density update of one `Loop::CalculateInitialConditions` iteration
(the radiative loss is evaluated at the just-computed temperature). -/
def ic_density (L : Loop) (heat c1 temperature : ℝ) : ℝ :=
  Real.sqrt (heat/(L.radLoss (Real.logb 10 temperature)*(1 + c1)))

/-- The fixed-point loop of `Loop::CalculateInitialConditions`; `fuel` counts
the iterations that remain after the current one (the C++ loop runs at most
`i_max = 100` iterations, so the solver enters with `fuel = 99` and the
initial `c1 = 2`).  It exits as soon as
`fmax(error_density, error_temperature) < 1e-2` and otherwise, after the
budget, silently returns the last computed pair. -/
def ic_go (L : Loop) (heat : ℝ) : ℕ → ℝ → ℝ → ℝ → ℝ × ℝ
  | fuel, c1, temperature_old, density_old =>
    let temperature := ic_temperature L heat c1
    let density := ic_density L heat c1 temperature
    if max (|density - density_old|/density) (|temperature - temperature_old|/temperature)
        < 1e-2 then
      (temperature, density)
    else
      match fuel with
      | 0 => (temperature, density)
      | f+1 => ic_go L heat f (CalculateC1 L temperature temperature density)
          temperature density

/-- Ghost observer: the number of iterations the fixed-point loop of
`Loop::CalculateInitialConditions` executes, mirroring `ic_go`. -/
def ic_steps (L : Loop) (heat : ℝ) : ℕ → ℝ → ℝ → ℝ → ℕ
  | fuel, c1, temperature_old, density_old =>
    let temperature := ic_temperature L heat c1
    let density := ic_density L heat c1 temperature
    if max (|density - density_old|/density) (|temperature - temperature_old|/temperature)
        < 1e-2 then
      1
    else
      match fuel with
      | 0 => 1
      | f+1 => 1 + ic_steps L heat f (CalculateC1 L temperature temperature density)
          temperature density

/-- `Loop::CalculateInitialConditions`: run the fixed-point iteration from
`c1 = 2` with both old iterates seeded at `LARGEST_DOUBLE`, then build the
seed state `(kB*n*T, boltzmann_correction*kB*n*T, n)`. -/
def CalculateInitialConditions (L : Loop) : EState :=
  let heat := L.heating 0
  let td := ic_go L heat 99 2 L.consts.largest_double L.consts.largest_double
  ⟨L.consts.boltzmann_constant*td.2*td.1,
   L.p.boltzmann_correction*L.consts.boltzmann_constant*td.2*td.1,
   td.2⟩

/-- Sample parameter record used to instantiate theorems on concrete inputs. -/
def onesP : Params :=
  { total_time := 2, tau := 1, loop_length := 1, rka_error := 1, saturation_limit := 1,
    c1_cond0 := 0, c1_rad0 := 2, use_c1_loss_correction := false,
    use_c1_grav_correction := false, use_power_law_radiative_losses := true,
    use_spitzer_conductivity := true, calculate_dem := false, solver := "euler",
    boltzmann_correction := 1, ion_mass_correction := 1 }

/-- Sample constants record used to instantiate theorems on concrete inputs. -/
def onesC : PhysConsts :=
  { boltzmann_constant := 1, spitzer_electron_conductivity := 1,
    spitzer_ion_conductivity := 1, electron_mass := 1, proton_mass := 1, gamma := 1,
    gamma_minus_one := 1, solar_surface_gravity := 1, electron_charge_power_4 := 1,
    largest_double := 1 }

/-- Sample loop instance with unit constants. -/
def Wones : Loop :=
  { consts := onesC, p := onesP, radLoss := fun _ => 1, heating := fun _ => 0,
    partition := 1/2 }

/-- Constants with vanishing conductivities and vanishing electron charge,
which make the right-hand side of the ODE system degenerate. -/
def zeroCondC : PhysConsts :=
  { onesC with
    spitzer_electron_conductivity := 0
    spitzer_ion_conductivity := 0
    electron_charge_power_4 := 0 }

/-- Loop instance whose derivative function vanishes identically, so that the
first adaptive attempt is exact and accepted. -/
def Wacc : Loop :=
  { consts := zeroCondC, p := onesP, radLoss := fun _ => 0, heating := fun _ => 0,
    partition := 1 }

/-- Loop instance whose derivative function is `(t^4, 0, 0)` while
`rka_error = 0`, so that every adaptive attempt is rejected. -/
def W4f : Loop :=
  { consts := zeroCondC, p := { onesP with rka_error := 0 }, radLoss := fun _ => 0,
    heating := fun t => t^4, partition := 1 }

/-- Loop instance configured with a solver string that matches none of the
three recognized solvers. -/
def Lnone : Loop :=
  { consts := onesC, p := { onesP with solver := "none" }, radLoss := fun _ => 1,
    heating := fun _ => 0, partition := 1/2 }

/-- Constants used by the instance `CP5` below. -/
def CP5consts : PhysConsts :=
  { onesC with
    spitzer_electron_conductivity := 7/2
    spitzer_ion_conductivity := 0
    electron_charge_power_4 := 0 }

/-- Loop instance on which one explicit Euler step of `EvolveLoop` drives the
electron pressure negative although the heating rate is identically zero. -/
def CP5 : Loop :=
  { consts := CP5consts, p := onesP, radLoss := fun _ => 1, heating := fun _ => 0,
    partition := 1/2 }

/-- Constants used by the instance `W7` below. -/
def W7consts : PhysConsts :=
  { onesC with
    spitzer_electron_conductivity := 7/3
    spitzer_ion_conductivity := 0 }

/-- Loop instance on which the first initial-condition iteration converges
exactly to the pair `(0.9, 1)`. -/
def W7 : Loop :=
  { consts := W7consts, p := onesP, radLoss := fun _ => 1/3, heating := fun _ => 1,
    partition := 1/2 }

end

/-- The candidate step size of an attempt is positive whenever the attempt's
step size is: the `fmax` floors it at `tau/1.1`. -/
theorem rka4_candidate_tau_pos (L : Loop) (s : EState) (time tau : ℝ) (htau : 0 < tau) :
    0 < rka4_candidate_tau L s time tau :=
  lt_of_lt_of_le (by positivity) (le_max_right _ _)

/-- Characterization of the attempt loop of `RKA4Solver`: for a positive
entering step size, the attempt at which the loop returns has a positive step
size `ta = rka4_final_tau ...`, the returned state is that attempt's
small-step result, the returned step size is `fmin` of that attempt's
candidate update and `4*ta`, and the accepted flag holds exactly when that
attempt's error ratio is below one. -/
theorem rka4_go_spec (L : Loop) (s : EState) (time : ℝ) :
    ∀ (fuel : ℕ) (tau : ℝ), 0 < tau →
      0 < rka4_final_tau L s time fuel tau ∧
      (rka4_go L s time fuel tau).1 =
        rka4_small_step L s time (rka4_final_tau L s time fuel tau) ∧
      (rka4_go L s time fuel tau).2.1 =
        min (rka4_candidate_tau L s time (rka4_final_tau L s time fuel tau))
          (4*rka4_final_tau L s time fuel tau) ∧
      ((rka4_go L s time fuel tau).2.2 = true ↔
        rka4_err_max L s time (rka4_final_tau L s time fuel tau) < 1) := by
  intro fuel
  induction fuel with
  | zero =>
    intro tau htau
    refine ⟨htau, rfl, rfl, ?_⟩
    by_cases h : rka4_err_max L s time tau < 1 <;> simp [rka4_go, rka4_final_tau, h]
  | succ f ih =>
    intro tau htau
    by_cases h : rka4_err_max L s time tau < 1
    · refine ⟨?_, ?_, ?_, ?_⟩ <;> simp [rka4_go, rka4_final_tau, h, htau]
    · have hc := rka4_candidate_tau_pos L s time tau htau
      have := ih (rka4_candidate_tau L s time tau) hc
      simpa [rka4_go, rka4_final_tau, h] using this

/-- Claim C2: whenever `RKA4Solver`'s attempt loop returns from inside the
loop (the accepted flag is `true`) for a positive entering step size and a
positive `rka_error`, the accepting attempt's worst-case per-component error
ratio is strictly below one, the returned state is that attempt's
two-half-step RK4 result, and the returned step size equals
`min (max (0.9*ta*ratio^(-1/5)) (ta/1.1)) (4*ta)` and lies between `ta/1.1`
and `4*ta`, where `ta` is the accepting attempt's step size.  (`RKA4Solver`
itself calls this loop with `fuel = 99`, i.e. 100 attempts, and appends the
returned step size as the last element of the returned vector.) -/
theorem rka4_accepted_spec (L : Loop) (s : EState) (time : ℝ) (fuel : ℕ) (tau : ℝ)
    (htau : 0 < tau) (_herr : 0 < L.p.rka_error)
    (hacc : (rka4_go L s time fuel tau).2.2 = true) :
    rka4_err_max L s time (rka4_final_tau L s time fuel tau) < 1 ∧
    (rka4_go L s time fuel tau).1 =
      rka4_small_step L s time (rka4_final_tau L s time fuel tau) ∧
    (rka4_go L s time fuel tau).2.1 =
      min (max (0.9*rka4_final_tau L s time fuel tau
            *(rka4_err_max L s time (rka4_final_tau L s time fuel tau)) ^ (-1/5 : ℝ))
          (rka4_final_tau L s time fuel tau/1.1))
        (4*rka4_final_tau L s time fuel tau) ∧
    rka4_final_tau L s time fuel tau/1.1 ≤ (rka4_go L s time fuel tau).2.1 ∧
    (rka4_go L s time fuel tau).2.1 ≤ 4*rka4_final_tau L s time fuel tau := by
  obtain ⟨hpos, h1, h2, h3⟩ := rka4_go_spec L s time fuel tau htau
  set ta := rka4_final_tau L s time fuel tau with hta
  refine ⟨h3.mp hacc, h1, by rw [h2]; rfl, ?_, ?_⟩
  · rw [h2]
    refine le_min (le_trans ?_ (le_max_right _ _)) ?_
    · exact le_refl _
    · rw [div_le_iff₀ (by norm_num : (0:ℝ) < 1.1)]
      nlinarith
  · rw [h2]
    exact min_le_right _ _

/-- Claim C4: when `RKA4Solver`'s attempt loop exhausts its bounded attempts
without any attempt reaching an error ratio below one (the accepted flag is
`false`, the path that prints the non-fatal warning), the function still
returns: the returned state is the last attempt's two-half-step RK4 result,
and the returned step size is the last computed candidate step size capped at
`4` times the final attempt's step size.  (`RKA4Solver` calls this loop with
`fuel = 99`, i.e. 100 bounded attempts.) -/
theorem rka4_exhausted_spec (L : Loop) (s : EState) (time : ℝ) (fuel : ℕ) (tau : ℝ)
    (htau : 0 < tau) (hfail : (rka4_go L s time fuel tau).2.2 = false) :
    ¬ rka4_err_max L s time (rka4_final_tau L s time fuel tau) < 1 ∧
    (rka4_go L s time fuel tau).1 =
      rka4_small_step L s time (rka4_final_tau L s time fuel tau) ∧
    (rka4_go L s time fuel tau).2.1 =
      min (rka4_candidate_tau L s time (rka4_final_tau L s time fuel tau))
        (4*rka4_final_tau L s time fuel tau) := by
  obtain ⟨hpos, h1, h2, h3⟩ := rka4_go_spec L s time fuel tau htau
  refine ⟨fun hlt => ?_, h1, h2⟩
  rw [h3.mpr hlt] at hfail
  exact Bool.noConfusion hfail

/-- Claim C10: for a positive input step size and a nonnegative `rka_error`,
`RKA4Solver` returns a vector one longer than the state vector whose last
element (the updated step size) is strictly positive — every attempt's update
is floored at the previous step size divided by `1.1` — so the `time += tau`
of `EvolveLoop` strictly increases the time on every iteration. -/
theorem rka4_tau_positive (L : Loop) (s : EState) (time tau : ℝ)
    (htau : 0 < tau) (_herr : 0 ≤ L.p.rka_error) :
    (RKA4Solver L s time tau).length = (EState.toVec s).length + 1 ∧
    0 < (RKA4Solver L s time tau).getLastD 0 ∧
    time < time + (RKA4Solver L s time tau).getLastD 0 := by
  obtain ⟨hpos, h1, h2, h3⟩ := rka4_go_spec L s time 99 tau htau
  have hlast : (RKA4Solver L s time tau).getLastD 0 = (rka4_go L s time 99 tau).2.1 := rfl
  have hppos : 0 < (rka4_go L s time 99 tau).2.1 := by
    rw [h2]
    exact lt_min (rka4_candidate_tau_pos L s time _ hpos) (by linarith)
  refine ⟨rfl, ?_, ?_⟩
  · rw [hlast]; exact hppos
  · rw [hlast]; linarith

/-- On the instance `Wacc` every derivative vanishes: the conductivities, the
radiative loss, the electron charge and the heating are all zero. -/
theorem wacc_derivs (s : EState) (t : ℝ) : CalculateDerivs Wacc s t = ⟨0, 0, 0⟩ := by
  simp [CalculateDerivs, psi_tr, psi_c, R_c, xi_of, CalculateThermalConduction, f_c_of,
    f_s_of, kappa_of, CalculateCollisionFrequency, temperature_e_of, temperature_i_of,
    CalculateC2, CalculateC3, Wacc, zeroCondC, onesC, onesP]

/-- On `Wacc` an RK4 step is the identity. -/
theorem wacc_rk4 (s : EState) (t tau : ℝ) : RK4Solver Wacc s t tau = s := by
  obtain ⟨pe, pi, n⟩ := s
  simp [RK4Solver, wacc_derivs]

/-- On `Wacc` the very first adaptive attempt is accepted. -/
theorem wacc_accept : (rka4_go Wacc ⟨1, 1, 1⟩ 0 0 1).2.2 = true := by
  have h : rka4_err_max Wacc ⟨1, 1, 1⟩ 0 1 = 0 := by
    simp [rka4_err_max, rka4_small_step, err_comp, wacc_rk4]
  simp only [rka4_go, h]
  rw [if_pos (by norm_num : (0:ℝ) < 1)]

/-- On the instance `W4f` the derivative vector is `(t^4, 0, 0)`: only the
time-dependent heating term survives. -/
theorem w4f_derivs (s : EState) (t : ℝ) : CalculateDerivs W4f s t = ⟨t^4, 0, 0⟩ := by
  simp [CalculateDerivs, psi_tr, psi_c, R_c, xi_of, CalculateThermalConduction, f_c_of,
    f_s_of, kappa_of, CalculateCollisionFrequency, temperature_e_of, temperature_i_of,
    CalculateC2, CalculateC3, W4f, zeroCondC, onesC, onesP]

/-- On `W4f` an RK4 step is Simpson quadrature of `t^4` in the first
component and the identity elsewhere. -/
theorem w4f_rk4 (s : EState) (t tau : ℝ) :
    RK4Solver W4f s t tau =
      ⟨s.pe + tau/6*(t^4 + 2*(t + tau/2)^4 + 2*(t + tau/2)^4 + (t + tau)^4),
       s.pi, s.n⟩ := by
  simp [RK4Solver, w4f_derivs]

/-- On `W4f` the single attempt of a zero-fuel adaptive call is rejected:
with `rka_error = 0` the electron-pressure error ratio is `(1/128)/1e-16`. -/
theorem w4f_fail : (rka4_go W4f ⟨1, 1, 1⟩ 0 0 1).2.2 = false := by
  have hsm : rka4_small_step W4f ⟨1, 1, 1⟩ 0 1 = ⟨461/384, 1, 1⟩ := by
    rw [rka4_small_step, w4f_rk4, w4f_rk4]
    simp only [EState.mk.injEq]
    norm_num
  have hbg : RK4Solver W4f ⟨1, 1, 1⟩ 0 1 = ⟨29/24, 1, 1⟩ := by
    rw [w4f_rk4]
    simp only [EState.mk.injEq]
    norm_num
  have habs : |(461/384 : ℝ) - 29/24| = 1/128 := by
    rw [show (461/384 : ℝ) - 29/24 = -(1/128) by norm_num, abs_neg,
      abs_of_nonneg (by norm_num : (0:ℝ) ≤ 1/128)]
  have hre : W4f.p.rka_error = 0 := rfl
  have h1 : err_comp W4f.p.rka_error (461/384) (29/24) = 78125000000000 := by
    rw [err_comp, hre, habs]
    norm_num
  have h2 : err_comp W4f.p.rka_error 1 1 = 0 := by
    rw [err_comp, hre]
    norm_num
  have herr : rka4_err_max W4f ⟨1, 1, 1⟩ 0 1 = 78125000000000 := by
    simp only [rka4_err_max, hsm, hbg, h1, h2]
    rw [max_eq_left (le_max_right _ _),
      max_eq_left (by norm_num : (0:ℝ) ≤ 78125000000000)]
  simp only [rka4_go, herr]
  rw [if_neg (by norm_num : ¬ (78125000000000:ℝ) < 1)]

/-- Witness for claim C2: on the instance `Wacc` with step size `1` the
adaptive loop accepts, and the accepting attempt's error ratio is below
one. -/
theorem rka4_accepted_spec_witness :
    rka4_err_max Wacc ⟨1, 1, 1⟩ 0 (rka4_final_tau Wacc ⟨1, 1, 1⟩ 0 0 1) < 1 :=
  (rka4_accepted_spec Wacc ⟨1, 1, 1⟩ 0 0 1 (by norm_num)
    (by norm_num [Wacc, onesP]) wacc_accept).1

/-- Witness for claim C4: on the instance `W4f` with step size `1` the
adaptive loop exhausts its attempts, and the final attempt's error ratio is
not below one. -/
theorem rka4_exhausted_spec_witness :
    ¬ rka4_err_max W4f ⟨1, 1, 1⟩ 0 (rka4_final_tau W4f ⟨1, 1, 1⟩ 0 0 1) < 1 :=
  (rka4_exhausted_spec W4f ⟨1, 1, 1⟩ 0 0 1 (by norm_num) w4f_fail).1

/-- Witness for claim C10: on the instance `Wones` with step size `1` the
step size returned by `RKA4Solver` is strictly positive. -/
theorem rka4_tau_positive_witness :
    0 < (RKA4Solver Wones ⟨1, 1, 1⟩ 0 1).getLastD 0 :=
  (rka4_tau_positive Wones ⟨1, 1, 1⟩ 0 1 (by norm_num)
    (by norm_num [Wones, onesP])).2.1

/-- The conduction-dominated branch of `CalculateC1` is continuous at
`r = 1`. -/
theorem c1_cond_branch_continuousAt (cond0 : ℝ) :
    ContinuousAt (fun r : ℝ => c1_cond_branch cond0 r) 1 := by
  have hinv : ContinuousAt (fun r : ℝ => 1/r) 1 :=
    ContinuousAt.div continuousAt_const continuousAt_id one_ne_zero
  have hnum : ContinuousAt (fun r : ℝ => 2*c1_eqm0 + cond0*(1/r - 1)) 1 :=
    continuousAt_const.add (continuousAt_const.mul (hinv.sub continuousAt_const))
  have hden : ContinuousAt (fun r : ℝ => 1 + 1/r) 1 :=
    continuousAt_const.add hinv
  have h := ContinuousAt.div hnum hden (by norm_num)
  simpa [c1_cond_branch] using h

/-- The radiation-dominated branch of `CalculateC1` is continuous at
`r = 1`. -/
theorem c1_rad_branch_continuousAt (rad0 : ℝ) :
    ContinuousAt (fun r : ℝ => c1_rad_branch rad0 r) 1 := by
  have hnum : ContinuousAt (fun r : ℝ => 2*c1_eqm0 + rad0*(r - 1)) 1 :=
    continuousAt_const.add (continuousAt_const.mul (continuousAt_id.sub continuousAt_const))
  have hden : ContinuousAt (fun r : ℝ => 1 + r) 1 :=
    continuousAt_const.add continuousAt_id
  have h := ContinuousAt.div hnum hden (by norm_num)
  simpa [c1_rad_branch] using h

/-- Both branches of `CalculateC1` take the value `2` at the branch
boundary `r = 1`, for every choice of the baseline constants. -/
theorem c1_branch_boundary (cond0 rad0 : ℝ) :
    c1_cond_branch cond0 1 = 2 ∧ c1_rad_branch rad0 1 = 2 := by
  constructor
  · rw [c1_cond_branch, c1_eqm0]
    norm_num
  · rw [c1_rad_branch, c1_eqm0]
    norm_num

/-- Claim C1: for positive temperatures and density, `CalculateC1` returns
the piecewise branch value at `density_ratio = n^2/density_eqm_2`, scaled by
the loss and gravity corrections (each equal to `1` when its feature flag is
off); the two branch expressions are both `2` at `density_ratio = 1`, and
the piecewise function of the density ratio is continuous as the ratio
crosses `1`, for every choice of `c1_cond0` and `c1_rad0`. -/
theorem c1_closure_spec (L : Loop) (Te Ti n : ℝ)
    (_hTe : 0 < Te) (_hTi : 0 < Ti) (_hn : 0 < n) :
    CalculateC1 L Te Ti n =
      c1_loss_correction L Te*c1_grav_correction L Te Ti
        *(if density_rat L Te Ti n < 1 then c1_cond_branch L.p.c1_cond0 (density_rat L Te Ti n)
          else c1_rad_branch L.p.c1_rad0 (density_rat L Te Ti n)) ∧
    density_rat L Te Ti n = n^2/density_eqm_2 L Te Ti ∧
    (L.p.use_c1_loss_correction = false → c1_loss_correction L Te = 1) ∧
    (L.p.use_c1_grav_correction = false → c1_grav_correction L Te Ti = 1) ∧
    c1_cond_branch L.p.c1_cond0 1 = 2 ∧
    c1_rad_branch L.p.c1_rad0 1 = 2 ∧
    ContinuousAt (fun r : ℝ =>
      if r < 1 then c1_cond_branch L.p.c1_cond0 r else c1_rad_branch L.p.c1_rad0 r) 1 := by
  obtain ⟨hb1, hb2⟩ := c1_branch_boundary L.p.c1_cond0 L.p.c1_rad0
  refine ⟨by rw [CalculateC1]; ring, rfl, ?_, ?_, hb1, hb2, ?_⟩
  · intro h; rw [c1_loss_correction, h]; simp
  · intro h; rw [c1_grav_correction, h]; simp
  · have hval : c1_cond_branch L.p.c1_cond0 1 = c1_rad_branch L.p.c1_rad0 1 := by
      rw [hb1, hb2]
    have hIic : ContinuousWithinAt (fun r : ℝ =>
        if r < 1 then c1_cond_branch L.p.c1_cond0 r else c1_rad_branch L.p.c1_rad0 r)
        (Set.Iic 1) 1 := by
      refine ((c1_cond_branch_continuousAt L.p.c1_cond0).continuousWithinAt).congr ?_ ?_
      · intro y hy
        rcases lt_or_eq_of_le (Set.mem_Iic.mp hy) with hlt | heq
        · rw [if_pos (by exact_mod_cast hlt)]
        · subst heq
          rw [if_neg (lt_irrefl _), hval]
      · rw [if_neg (by norm_num), hval]
    have hIci : ContinuousWithinAt (fun r : ℝ =>
        if r < 1 then c1_cond_branch L.p.c1_cond0 r else c1_rad_branch L.p.c1_rad0 r)
        (Set.Ici 1) 1 := by
      refine ((c1_rad_branch_continuousAt L.p.c1_rad0).continuousWithinAt).congr ?_ ?_
      · intro y hy
        rw [if_neg (not_lt.mpr (by exact_mod_cast Set.mem_Ici.mp hy))]
      · rw [if_neg (by norm_num)]
    have h := hIic.union hIci
    rw [Set.Iic_union_Ici] at h
    exact (continuousWithinAt_univ _ _).mp h

/-- Witness for claim C1: on the instance `Wones` at `(1, 1, 1)` the
conduction branch takes the value `2` at the boundary. -/
theorem c1_closure_spec_witness : c1_cond_branch Wones.p.c1_cond0 1 = 2 :=
  (c1_closure_spec Wones 1 1 1 (by norm_num) (by norm_num) (by norm_num)).2.2.2.2.1

/-- Claim C6: for a positive temperature and density (and positive physical
constants and configuration scalars), `CalculateThermalConduction` computes
the classical flux `f_c = -(2/7)*kappa*(T/C2)^3.5/loop_length`, returns
exactly `f_c` when `use_spitzer_conductivity` is set and otherwise the
harmonic blend `-f_c*f_s/sqrt(f_c^2 + f_s^2)` with the saturated bound
`f_s`; in both cases the returned flux is strictly negative. -/
theorem c6_conduction_spec (L : Loop) (T n : ℝ) (species : String)
    (hT : 0 < T) (hn : 0 < n) (hL : 0 < L.p.loop_length)
    (hke : 0 < L.consts.spitzer_electron_conductivity)
    (hki : 0 < L.consts.spitzer_ion_conductivity)
    (hsat : 0 < L.p.saturation_limit) (hme : 0 < L.consts.electron_mass)
    (hmp : 0 < L.consts.proton_mass) (hkB : 0 < L.consts.boltzmann_constant)
    (hbc : 0 < L.p.boltzmann_correction) (himc : 0 < L.p.ion_mass_correction) :
    f_c_of L T species =
      -2/7*kappa_of L species*(T/CalculateC2 L) ^ (3.5 : ℝ)/L.p.loop_length ∧
    CalculateThermalConduction L T n species =
      (if L.p.use_spitzer_conductivity then f_c_of L T species
       else -f_c_of L T species*f_s_of L T n species
         /Real.sqrt ((f_c_of L T species)^2 + (f_s_of L T n species)^2)) ∧
    CalculateThermalConduction L T n species < 0 := by
  have hkap : 0 < kappa_of L species := by
    rw [kappa_of]; split <;> assumption
  have hmass : 0 < mass_of L species := by
    rw [mass_of]; split
    · exact hme
    · exact mul_pos himc hmp
  have hkB2 : 0 < kB_of L species := by
    rw [kB_of]; split
    · exact hkB
    · exact mul_pos hbc hkB
  have hX : 0 < (T/CalculateC2 L) ^ (3.5 : ℝ) :=
    Real.rpow_pos_of_pos (div_pos hT (by rw [CalculateC2]; norm_num)) _
  have hfc : f_c_of L T species < 0 := by
    rw [f_c_of]
    apply div_neg_of_neg_of_pos _ hL
    have h1 : (-2/7 : ℝ)*kappa_of L species < 0 :=
      mul_neg_of_neg_of_pos (by norm_num) hkap
    exact mul_neg_of_neg_of_pos h1 hX
  have hfs : f_s_of L T n species < 0 := by
    rw [f_s_of]
    have h1 : -L.p.saturation_limit*1.5 < 0 := by nlinarith
    have h2 : -L.p.saturation_limit*1.5/Real.sqrt (mass_of L species) < 0 :=
      div_neg_of_neg_of_pos h1 (Real.sqrt_pos.mpr hmass)
    have h3 : -L.p.saturation_limit*1.5/Real.sqrt (mass_of L species)*n < 0 :=
      mul_neg_of_neg_of_pos h2 hn
    exact mul_neg_of_neg_of_pos h3 (Real.rpow_pos_of_pos (mul_pos hkB2 hT) _)
  refine ⟨rfl, rfl, ?_⟩
  rw [CalculateThermalConduction]
  split
  · exact hfc
  · apply div_neg_of_neg_of_pos
    · have : 0 < -f_c_of L T species := neg_pos.mpr hfc
      nlinarith
    · apply Real.sqrt_pos.mpr
      nlinarith [sq_nonneg (f_s_of L T n species), hfc]

/-- Witness for claim C6: on the instance `Wones` at temperature `1` and
density `1` the electron heat flux is strictly negative. -/
theorem c6_conduction_spec_witness :
    CalculateThermalConduction Wones 1 1 electron_species < 0 :=
  (c6_conduction_spec Wones 1 1 electron_species (by norm_num) (by norm_num)
    (by norm_num [Wones, onesP]) (by norm_num [Wones, onesC])
    (by norm_num [Wones, onesC]) (by norm_num [Wones, onesP])
    (by norm_num [Wones, onesC]) (by norm_num [Wones, onesC])
    (by norm_num [Wones, onesC]) (by norm_num [Wones, onesP])
    (by norm_num [Wones, onesP])).2.2

/-- Claim C3: for a state with positive pressures and density,
`CalculateDerivs` recovers the temperatures `Te = Pe/(kB*n)` and
`Ti = Pi/(boltzmann_correction*kB*n)`, computes the transition-region flux
`psi_tr = (f_e + C1*R_c - xi*f_i)/(1 + xi)` with `xi = Pe/Pi` and
`R_c = n^2*R(Te)*loop_length` where `R` is the radiative-loss collaborator
queried at (the base-10 logarithm of) `Te`, and the three returned
derivatives are the stated combinations of `psi_tr`, `psi_c`, `R_c`, `C1`
and the heating partition.  The embedding renders the function as a pure
function of the state, the time, the configuration and the collaborator
outputs, with no mutable shared state. -/
theorem c3_derivs_spec (L : Loop) (s : EState) (time : ℝ)
    (_hpe : 0 < s.pe) (_hpi : 0 < s.pi) (_hn : 0 < s.n) :
    temperature_e_of L s = s.pe/(L.consts.boltzmann_constant*s.n) ∧
    temperature_i_of L s = s.pi/(L.p.boltzmann_correction*(L.consts.boltzmann_constant*s.n)) ∧
    xi_of s = s.pe/s.pi ∧
    R_c L s = s.n^2*L.radLoss (Real.logb 10 (temperature_e_of L s))*L.p.loop_length ∧
    psi_tr L s =
      (CalculateThermalConduction L (temperature_e_of L s) s.n electron_species
          + CalculateC1 L (temperature_e_of L s) (temperature_i_of L s) s.n*R_c L s
          - xi_of s*CalculateThermalConduction L (temperature_i_of L s) s.n ion_species)
        /(1 + xi_of s) ∧
    CalculateDerivs L s time =
      ⟨L.consts.gamma_minus_one/L.p.loop_length
          *(psi_tr L s + psi_c L s
            - R_c L s*(1 + CalculateC1 L (temperature_e_of L s) (temperature_i_of L s) s.n))
        + L.consts.gamma_minus_one*L.heating time*L.partition,
       -L.consts.gamma_minus_one/L.p.loop_length*(psi_tr L s + psi_c L s)
        + L.consts.gamma_minus_one*L.heating time*(1 - L.partition),
       CalculateC2 L*L.consts.gamma_minus_one
          /(CalculateC3 L*L.p.loop_length*L.consts.gamma*L.consts.boltzmann_constant
            *temperature_e_of L s)
          *(-CalculateThermalConduction L (temperature_e_of L s) s.n electron_species
            - CalculateC1 L (temperature_e_of L s) (temperature_i_of L s) s.n*R_c L s
            + psi_tr L s)⟩ := by
  refine ⟨rfl, ?_, rfl, rfl, rfl, rfl⟩
  rw [temperature_i_of]
  ring_nf

/-- Witness for claim C3: on the instance `Wones` at the state `(1, 1, 1)`
the recovered electron temperature is `Pe/(kB*n)`. -/
theorem c3_derivs_spec_witness :
    temperature_e_of Wones ⟨1, 1, 1⟩ = (1:ℝ)/(Wones.consts.boltzmann_constant*1) :=
  (c3_derivs_spec Wones ⟨1, 1, 1⟩ 0 (by norm_num) (by norm_num) (by norm_num)).1

/-- The iteration count of the initial-condition loop is bounded by
`fuel + 1`. -/
theorem ic_steps_le (L : Loop) (heat : ℝ) :
    ∀ (fuel : ℕ) (c1 temperature_old density_old : ℝ),
      ic_steps L heat fuel c1 temperature_old density_old ≤ fuel + 1 := by
  intro fuel
  induction fuel with
  | zero =>
    intro c1 temperature_old density_old
    rw [ic_steps]
    split
    · exact le_refl 1
    · exact le_refl 1
  | succ f ih =>
    intro c1 temperature_old density_old
    rw [ic_steps]
    split
    · omega
    · have := ih (CalculateC1 L (ic_temperature L heat c1)
        (ic_temperature L heat c1)
        (ic_density L heat c1 (ic_temperature L heat c1))) (ic_temperature L heat c1)
        (ic_density L heat c1 (ic_temperature L heat c1))
      omega

/-- Claim C7: `CalculateInitialConditions` is a bounded fixed-point
iteration.  The seed state satisfies `Pe0 = kB*n0*T`, `Pi0 =
boltzmann_correction*Pe0` and `n0 = d`, where `(T, d)` are the final
iterates of the loop entered with `c1 = 2` and a `fuel` of `99` (100
iterations at most, which the iteration-count bound makes exact); the loop
returns the current pair as soon as both relative errors drop below `1e-2`,
and at the end of the budget it silently returns the last computed pair even
when the tolerance was never met. -/
theorem c7_initial_conditions (L : Loop) :
    (CalculateInitialConditions L).pe =
      L.consts.boltzmann_constant*(CalculateInitialConditions L).n
        *(ic_go L (L.heating 0) 99 2 L.consts.largest_double L.consts.largest_double).1 ∧
    (CalculateInitialConditions L).pi =
      L.p.boltzmann_correction*(CalculateInitialConditions L).pe ∧
    (CalculateInitialConditions L).n =
      (ic_go L (L.heating 0) 99 2 L.consts.largest_double L.consts.largest_double).2 ∧
    (∀ (heat : ℝ) (fuel : ℕ) (c1 temperature_old density_old : ℝ),
      |ic_density L heat c1 (ic_temperature L heat c1) - density_old|
          /ic_density L heat c1 (ic_temperature L heat c1) < 1e-2 →
      |ic_temperature L heat c1 - temperature_old|/ic_temperature L heat c1 < 1e-2 →
      ic_go L heat fuel c1 temperature_old density_old =
        (ic_temperature L heat c1, ic_density L heat c1 (ic_temperature L heat c1))) ∧
    (∀ (heat c1 temperature_old density_old : ℝ),
      ic_steps L heat 99 c1 temperature_old density_old ≤ 100) ∧
    (∀ (heat c1 temperature_old density_old : ℝ),
      ¬ max (|ic_density L heat c1 (ic_temperature L heat c1) - density_old|
            /ic_density L heat c1 (ic_temperature L heat c1))
          (|ic_temperature L heat c1 - temperature_old|/ic_temperature L heat c1) < 1e-2 →
      ic_go L heat 0 c1 temperature_old density_old =
        (ic_temperature L heat c1, ic_density L heat c1 (ic_temperature L heat c1))) := by
  refine ⟨?_, ?_, rfl, ?_, ?_, ?_⟩
  · rw [CalculateInitialConditions]
  · rw [CalculateInitialConditions]
    ring
  · intro heat fuel c1 temperature_old density_old hd ht
    rw [ic_go.eq_def]
    exact if_pos (max_lt hd ht)
  · intro heat c1 temperature_old density_old
    exact ic_steps_le L heat 99 c1 temperature_old density_old
  · intro heat c1 temperature_old density_old h
    rw [ic_go.eq_def]
    exact if_neg h

/-- On `W7` the first initial-condition iteration with `c1 = 2` computes the
temperature `0.9`. -/
theorem w7_temperature : ic_temperature W7 1 2 = 0.9 := by
  rw [ic_temperature, CalculateC2]
  have h : (3.5*2/(1 + 2)*W7.p.loop_length^2*1
      /(W7.consts.spitzer_electron_conductivity + W7.consts.spitzer_ion_conductivity) : ℝ)
      = 1 := by
    norm_num [W7, W7consts, onesC, onesP]
  rw [h, Real.one_rpow, mul_one]

/-- On `W7` the first initial-condition iteration with `c1 = 2` computes the
density `1`. -/
theorem w7_density : ic_density W7 1 2 0.9 = 1 := by
  rw [ic_density]
  have h : (1/(W7.radLoss (Real.logb 10 0.9)*(1 + 2)) : ℝ) = 1 := by
    norm_num [W7]
  rw [h, Real.sqrt_one]

/-- Witness for claim C7: on the instance `W7` the seed state's ion pressure
is the Boltzmann-corrected electron pressure, and the fixed-point loop exits
on its first iteration at the converged pair `(0.9, 1)`. -/
theorem c7_initial_conditions_witness :
    (CalculateInitialConditions W7).pi =
      W7.p.boltzmann_correction*(CalculateInitialConditions W7).pe ∧
    ic_go W7 1 5 2 0.9 1 = (0.9, 1) := by
  obtain ⟨-, h2, -, h4, -, -⟩ := c7_initial_conditions W7
  refine ⟨h2, ?_⟩
  have h := h4 1 5 2 0.9 1 ?_ ?_
  · rw [h, w7_temperature, w7_density]
  · rw [w7_temperature, w7_density]
    norm_num
  · rw [w7_temperature]
    norm_num

/-- `k` successive `pop_back` operations shorten a list by `k`. -/
theorem popN_length : ∀ (k : ℕ) (l : List ℝ), (popN k l).length = l.length - k := by
  intro k
  induction k with
  | zero => intro l; rfl
  | succ j ih =>
    intro l
    rw [popN, ih, List.length_dropLast]
    omega

/-- Claim C8: the seven result sequences stay the same length through every
operation of a run.  They are pre-sized to `N = ceil(total_time/tau)`
entries at construction; `SaveResults` writes index `i` in place when
`i < N` (preserving the common length) and appends one entry to all seven
when `i >= N`; the trimming of `PrintToFile` removes the same number of
trailing entries from all seven; and the number removed,
`excess = N - steps`, is clamped at zero, i.e. equals `max 0 (N - steps)`
over the machine integers. -/
theorem c8_results_invariant (L : Loop) :
    computeN L.p = (Int.ceil (L.p.total_time/L.p.tau)).toNat ∧
    EqLen (initResults (computeN L.p)) (computeN L.p) ∧
    (∀ (res : Results) (m i : ℕ) (time : ℝ) (st : EState), EqLen res m →
      ¬ computeN L.p ≤ i → EqLen (SaveResults L (computeN L.p) res i time st) m) ∧
    (∀ (res : Results) (m i : ℕ) (time : ℝ) (st : EState), EqLen res m →
      computeN L.p ≤ i → EqLen (SaveResults L (computeN L.p) res i time st) (m + 1)) ∧
    (∀ (res : Results) (m k : ℕ), EqLen res m → EqLen (trimResults res k) (m - k)) ∧
    (∀ N i : ℤ, excess_of N i = max 0 (N - i)) := by
  refine ⟨rfl, ?_, ?_, ?_, ?_, ?_⟩
  · refine ⟨?_, ?_, ?_, ?_, ?_, ?_, ?_⟩ <;> exact List.length_replicate _ _
  · intro res m i time st h hi
    obtain ⟨h1, h2, h3, h4, h5, h6, h7⟩ := h
    rw [SaveResults, if_neg hi]
    exact ⟨by simp [h1], by simp [h2], by simp [h3], by simp [h4], by simp [h5],
      by simp [h6], by simp [h7]⟩
  · intro res m i time st h hi
    obtain ⟨h1, h2, h3, h4, h5, h6, h7⟩ := h
    rw [SaveResults, if_pos hi]
    exact ⟨by simp [h1], by simp [h2], by simp [h3], by simp [h4], by simp [h5],
      by simp [h6], by simp [h7]⟩
  · intro res m k h
    obtain ⟨h1, h2, h3, h4, h5, h6, h7⟩ := h
    exact ⟨by rw [trimResults]; rw [popN_length, h1],
      by rw [trimResults]; rw [popN_length, h2],
      by rw [trimResults]; rw [popN_length, h3],
      by rw [trimResults]; rw [popN_length, h4],
      by rw [trimResults]; rw [popN_length, h5],
      by rw [trimResults]; rw [popN_length, h6],
      by rw [trimResults]; rw [popN_length, h7]⟩
  · intro N i
    rw [excess_of]
    split
    · omega
    · omega

/-- Witness for claim C8: on the instance `Wones`, appending a row past the
pre-sized range grows all seven sequences from `N` to `N + 1`. -/
theorem c8_results_invariant_witness :
    EqLen (SaveResults Wones (computeN Wones.p) (initResults (computeN Wones.p))
      (computeN Wones.p) 0 ⟨1, 1, 1⟩) (computeN Wones.p + 1) := by
  obtain ⟨-, hinit, -, happ, -, -⟩ := c8_results_invariant Wones
  exact happ (initResults (computeN Wones.p)) (computeN Wones.p) (computeN Wones.p) 0
    ⟨1, 1, 1⟩ hinit (le_refl _)

/-- Claim C9: when the configured solver string is none of `"euler"`,
`"rk4"` and `"rka4"`, the solver dispatch falls through without updating the
state or the step size, and an `EvolveLoop` iteration still saves a result
row for the unchanged state and still advances the time by `tau`. -/
theorem c9_unknown_solver (L : Loop) (N fuel : ℕ) (st : EState) (time tau : ℝ)
    (i : ℕ) (res : Results)
    (h1 : L.p.solver ≠ "euler") (h2 : L.p.solver ≠ "rk4") (h3 : L.p.solver ≠ "rka4")
    (ht : time < L.p.total_time) :
    EvolveStep L st time tau = (st, tau) ∧
    EvolveLoop_go L N (fuel + 1) st time tau i res =
      EvolveLoop_go L N fuel st (time + tau) tau (i + 1) (SaveResults L N res i time st) := by
  have hstep : EvolveStep L st time tau = (st, tau) := by
    rw [EvolveStep, if_neg h1, if_neg h2, if_neg h3]
  refine ⟨hstep, ?_⟩
  rw [EvolveLoop_go, if_pos ht, hstep]

/-- Witness for claim C9: on the instance `Lnone` (solver string `"none"`)
the dispatch leaves the state and the step size unchanged. -/
theorem c9_unknown_solver_witness : EvolveStep Lnone ⟨1, 1, 1⟩ 1 1 = (⟨1, 1, 1⟩, 1) :=
  (c9_unknown_solver Lnone 2 0 ⟨1, 1, 1⟩ 1 1 1 (initResults 2)
    (by decide) (by decide) (by decide) (by norm_num [Lnone, onesP])).1

/-- On `CP5` the recovered electron temperature of the state
`(9/10, 9/10, 1)` is `9/10`. -/
theorem cp5_te : temperature_e_of CP5 ⟨9/10, 9/10, 1⟩ = 9/10 := by
  norm_num [temperature_e_of, CP5, CP5consts, onesC, onesP]

/-- On `CP5` the recovered ion temperature of the state `(9/10, 9/10, 1)` is
`9/10`. -/
theorem cp5_ti : temperature_i_of CP5 ⟨9/10, 9/10, 1⟩ = 9/10 := by
  norm_num [temperature_i_of, CP5, CP5consts, onesC, onesP]

/-- On `CP5` the electron heat flux at temperature `9/10` and density `1` is
`-1`. -/
theorem cp5_fe : CalculateThermalConduction CP5 (9/10) 1 electron_species = -1 := by
  rw [CalculateThermalConduction, if_pos (by decide), f_c_of, kappa_of,
    if_pos (by decide), CalculateC2]
  rw [show ((9:ℝ)/10)/0.9 = 1 by norm_num, Real.one_rpow]
  norm_num [CP5, CP5consts, onesC, onesP]

/-- On `CP5` the ion heat flux at temperature `9/10` and density `1` is `0`
(the ion conductivity vanishes). -/
theorem cp5_fi : CalculateThermalConduction CP5 (9/10) 1 ion_species = 0 := by
  rw [CalculateThermalConduction, if_pos (by decide), f_c_of, kappa_of,
    if_neg (by decide)]
  norm_num [CP5, CP5consts, onesC, onesP]

/-- On `CP5` the closure coefficient at `(9/10, 9/10, 1)` is `2`: the
density ratio evaluates to `2` and the radiation branch gives
`(4 + 2*(2-1))/(1+2) = 2`. -/
theorem cp5_c1 : CalculateC1 CP5 (9/10) (9/10) 1 = 2 := by
  have hloss : c1_loss_correction CP5 (9/10) = 1 := by
    rw [c1_loss_correction, if_neg (by decide)]
  have hgrav : c1_grav_correction CP5 (9/10) (9/10) = 1 := by
    rw [c1_grav_correction, if_neg (by decide)]
  have hd : density_eqm_2 CP5 (9/10) (9/10) = 1/2 := by
    rw [density_eqm_2, hloss, hgrav, CalculateC2, c1_eqm0]
    rw [show ((9:ℝ)/10)/0.9 = 1 by norm_num, Real.one_rpow]
    norm_num [CP5, CP5consts, onesC, onesP]
  have hr : density_rat CP5 (9/10) (9/10) 1 = 2 := by
    rw [density_rat, hd]
    norm_num
  rw [CalculateC1]
  simp only [hr, hloss, hgrav]
  rw [if_neg (by norm_num : ¬ (2:ℝ) < 1), c1_rad_branch, c1_eqm0]
  norm_num [CP5, onesP]

/-- On `CP5` the collision frequency vanishes (the fourth power of the
electron charge is set to `0`). -/
theorem cp5_nu : CalculateCollisionFrequency CP5 (9/10) 1 = 0 := by
  simp [CalculateCollisionFrequency, CP5, CP5consts, onesC, onesP]

/-- On `CP5` the derivative of the state `(9/10, 9/10, 1)` is
`(-5/2, -1/2, -5/6)`. -/
theorem cp5_derivs (t : ℝ) :
    CalculateDerivs CP5 ⟨9/10, 9/10, 1⟩ t = ⟨-(5/2), -(1/2), -(5/6)⟩ := by
  have hpsic : psi_c CP5 ⟨9/10, 9/10, 1⟩ = 0 := by
    rw [psi_c, cp5_te, cp5_nu]
    norm_num
  have hrc : R_c CP5 ⟨9/10, 9/10, 1⟩ = 1 := by
    rw [R_c]
    norm_num [CP5, onesP]
  have hxi : xi_of ⟨9/10, 9/10, 1⟩ = 1 := by
    rw [xi_of]
    norm_num
  have hpsitr : psi_tr CP5 ⟨9/10, 9/10, 1⟩ = 1/2 := by
    rw [psi_tr, cp5_te, cp5_ti, cp5_fe, cp5_fi, cp5_c1, hrc, hxi]
    norm_num
  rw [CalculateDerivs]
  simp only [cp5_te, cp5_ti, cp5_fe, cp5_c1, hpsic, hrc, hpsitr, CalculateC2, CalculateC3,
    EState.mk.injEq]
  norm_num [CP5, CP5consts, onesC, onesP]

/-- Claim C5 fails on the code: on the configuration `CP5` the heating rate
is identically zero (hence nonnegative at all times), the initial state
`(9/10, 9/10, 1)` is strictly positive, yet the state produced by the first
`EvolveLoop` iteration (one explicit Euler step of size `tau = 1`) has a
strictly negative electron pressure.  Nothing in `EvolveLoop` or the solvers
validates or enforces positivity. -/
theorem c5_counterexample :
    (∀ t : ℝ, 0 ≤ CP5.heating t) ∧ StatePos ⟨9/10, 9/10, 1⟩ ∧
    (EvolveLoop CP5 2 ⟨9/10, 9/10, 1⟩).1.pe < 0 := by
  refine ⟨fun t => le_refl 0, by norm_num [StatePos], ?_⟩
  have heuler : EulerSolver CP5 ⟨9/10, 9/10, 1⟩ 1 1 = ⟨-(8/5), 2/5, 1/6⟩ := by
    rw [EulerSolver, cp5_derivs]
    simp only [EState.mk.injEq]
    norm_num
  have hstep : EvolveStep CP5 ⟨9/10, 9/10, 1⟩ 1 1 = (⟨-(8/5), 2/5, 1/6⟩, 1) := by
    rw [EvolveStep, if_pos (by decide : CP5.p.solver = "euler"), heuler]
  have h2 : EvolveLoop CP5 2 ⟨9/10, 9/10, 1⟩ =
      EvolveLoop_go CP5 (computeN CP5.p) 1 ⟨-(8/5), 2/5, 1/6⟩ (1 + 1) 1 2
        (SaveResults CP5 (computeN CP5.p) (initResults (computeN CP5.p)) 1 1
          ⟨-(8/5), 2/5, 1/6⟩) := by
    show EvolveLoop_go CP5 (computeN CP5.p) 2 ⟨9/10, 9/10, 1⟩ 1 1 1
      (initResults (computeN CP5.p)) = _
    rw [EvolveLoop_go, if_pos (by norm_num [CP5, onesP] : (1:ℝ) < CP5.p.total_time), hstep]
  rw [h2, EvolveLoop_go,
    if_neg (by norm_num [CP5, onesP] : ¬ ((1:ℝ) + 1) < CP5.p.total_time)]
  norm_num

/-- Claim C5, amended: the states produced by `EvolveLoop` are exactly the
iterates of the configured solver step, with no positivity validation in
between; consequently every reached state (in particular the final one) is
positive whenever every solver step preserves positivity, but — as the
counterexample shows — positivity is not guaranteed unconditionally, even
for a nonnegative heating rate. -/
theorem c5_positivity_amended (L : Loop) (N : ℕ)
    (hstep : ∀ (s : EState) (t tau : ℝ), StatePos s → StatePos (EvolveStep L s t tau).1) :
    ∀ (fuel : ℕ) (st : EState) (time tau : ℝ) (i : ℕ) (res : Results),
      StatePos st → StatePos (EvolveLoop_go L N fuel st time tau i res).1 := by
  intro fuel
  induction fuel with
  | zero =>
    intro st time tau i res hpos
    exact hpos
  | succ f ih =>
    intro st time tau i res hpos
    rw [EvolveLoop_go]
    split
    · exact ih _ _ _ _ _ (hstep st time tau hpos)
    · exact hpos

/-- Witness for the amended claim C5: on the instance `Lnone` the dispatch
is the identity, so it preserves positivity, and the loop keeps the state
`(1, 1, 1)` positive. -/
theorem c5_positivity_amended_witness :
    StatePos (EvolveLoop_go Lnone 2 3 ⟨1, 1, 1⟩ 0 1 1 (initResults 2)).1 := by
  have hstep : ∀ (s : EState) (t tau : ℝ), StatePos s →
      StatePos (EvolveStep Lnone s t tau).1 := by
    intro s t tau hs
    rw [EvolveStep, if_neg (by decide : ¬ Lnone.p.solver = "euler"),
      if_neg (by decide : ¬ Lnone.p.solver = "rk4"),
      if_neg (by decide : ¬ Lnone.p.solver = "rka4")]
    exact hs
  exact c5_positivity_amended Lnone 2 hstep 3 ⟨1, 1, 1⟩ 0 1 1 (initResults 2)
    (by norm_num [StatePos])
